import Mathlib

/-!
Verification of the ModelicaRes repository (Honigmelone/ModelicaRes).

The development shallowly embeds `modelicares/exps/simulators.py`
(the `dymola_script`, `dymosim` and `fmi` context managers) together with
the pieces of `modelicares/exps/__init__.py` that the simulators use
(`ParamDict` serialization, `gen_experiments`); the latter file is not part
of the sources at hand, so those two pieces are modelled from the
specification and are marked as such in their doc comments.

File writes are modelled as an explicit chronological trace of events
(script writes, run-log writes, closes), so that ordering claims about
the generated Dymola script and the tab-separated run log can be stated.
Environment-dependent functions of the Python standard library
(`os.getcwd`, `os.path.dirname`, `os.path.normpath`, ...) and
`modelicares.util.expand_path` are parameters of an `Env` record: the
generated text embeds their outputs verbatim and no claim depends on
their internals.
-/

namespace ModelicaRes

/-- Ambient facts used by the Python code: the current date
(`date.isoformat(date.today())`), the current directory (`os.getcwd()`),
the platform flag (whether `os.name` equals `nt`), and the path functions
`expand_path` (from `modelicares.util`, not under the sources at hand),
`os.path.dirname`, `os.path.normpath`, `os.path.basename` and
`os.path.join`.  They are uninterpreted string functions here: the writer
only splices their results into the generated text. -/
structure Env where
  today : String
  cwd : String
  isWindows : Bool
  expandPath : String → String
  dirname : String → String
  normpath : String → String
  basename : String → String
  joinPath : String → String → String

/-- The executable suffix: `.exe` when `os.name` equals `nt`, empty otherwise (simulators.py line 231). -/
def exeOf (isWindows : Bool) : String :=
  if isWindows then ".exe" else ""

/-- `os.path.sep`: the platform path separator. -/
def sepOf (isWindows : Bool) : String :=
  if isWindows then "\\" else "/"

def Env.exe (env : Env) : String := exeOf env.isWindows

def Env.sep (env : Env) : String := sepOf env.isWindows

/-- Does the first character list occur at the head of the second? -/
def isPrefixChars : List Char → List Char → Bool
  | [], _ => true
  | _ :: _, [] => false
  | a :: as, b :: bs => a == b && isPrefixChars as bs

/-- Left-to-right, non-overlapping replacement of a non-empty pattern in a
character list, with fuel for structural termination (the fuel is the
length of the list, enough because each step consumes at least one
character).  Model of CPython `str.replace` as used by
`result.replace` applied to the pattern `%x` in simulators.py lines 232-233 (that pattern is never empty). -/
def replaceChars (pat repl : List Char) : List Char → Nat → List Char
  | [], _ => []
  | l, 0 => l
  | c :: rest, fuel + 1 =>
    if pat ≠ [] && isPrefixChars pat (c :: rest) then
      repl ++ replaceChars pat repl (rest.drop (pat.length - 1)) fuel
    else
      c :: replaceChars pat repl rest fuel

/-- `s.replace(pat, repl)` on strings (executable model of CPython
`str.replace` for a non-empty pattern). -/
def pyReplace (s pat repl : String) : String :=
  ⟨replaceChars pat.data repl.data s.data s.data.length⟩

/-- `s.endswith(suffix)` (CPython `str.endswith`). -/
def pyEndsWith (s suffix : String) : Bool :=
  suffix.data.isSuffixOf s.data

/-- Python slicing `s[1:-1]`: drop the first and the last character.
Used on the serialized option dictionary and on the quoted problem
string when writing the run log (simulators.py lines 368-369). -/
def stripEnds (s : String) : String :=
  ⟨(s.data.drop 1).dropLast⟩

example : pyReplace "dymosim%x" "%x" "" = "dymosim" := by decide
example : pyReplace "dymosim%x" "%x" ".exe" = "dymosim.exe" := by decide
example : pyReplace "a%x%xb" "%x" "-" = "a--b" := by decide
example : pyEndsWith "pkg.mos" ".mos" = true := by decide
example : stripEnds "(a=1)" = "a=1" := by decide
example : stripEnds "" = "" := by decide

/-! ## Option and parameter dictionaries

Python dictionaries of command options and model parameters, with
insertion order and the CPython 3.7+ update semantics (updating an
existing key keeps its position, a new key is appended).  A value of
`none` models Python `None`, the absent/null sentinel. -/

/-- An ordered dictionary of option or parameter entries; values are the
final textual rendering of the Python value, or `none` for Python
`None`. -/
abbrev OptDict := List (String × Option String)

/-- Dictionary item assignment, CPython semantics: replace in place if
the key is present, append otherwise.  Models both
`self._options[attr] = value` (simulators.py line 293) and the keyword
merge `ParamDict(options, problem=problem)` (line 351). -/
def setItem : OptDict → String → Option String → OptDict
  | [], k, v => [(k, v)]
  | kv :: rest, k, v =>
    if kv.1 = k then (k, v) :: rest else kv :: setItem rest k v

/-- Dictionary lookup: `some v` when the key is present with value `v`
(where `v` itself may be `none`, i.e. Python `None`), `none` when the
key is absent. -/
def lookupItem (d : OptDict) (k : String) : Option (Option String) :=
  (d.find? (fun kv => kv.1 = k)).map (fun kv => kv.2)

/-- Modelled from the spec: `ParamDict.__str__` lives in
`modelicares/exps/__init__.py`, which is not among the sources at hand.
Per the spec (section 3), it serializes a dictionary "by joining
key=value pairs" and "entries with an absent/null value are omitted";
per the simulators.py doctests, a non-empty rendering is wrapped in
parentheses and an all-empty one renders as the empty string (the code
strips the parentheses with `[1:-1]` when logging, and appends the
rendering directly after the model name or command name).
`entryStrs` is the list of rendered `key=value` pairs, `paramDictStr`
the final string. -/
def entryStrs (d : OptDict) : List String :=
  d.filterMap (fun kv => kv.2.map (fun v => kv.1 ++ "=" ++ v))

/-- Modelled from the spec: see `entryStrs`. -/
def paramDictStr (d : OptDict) : String :=
  if (entryStrs d).isEmpty then ""
  else "(" ++ String.intercalate ", " (entryStrs d) ++ ")"

example : paramDictStr [("stopTime", some "2500")] = "(stopTime=2500)" := by decide
example : paramDictStr [("a", none), ("b", some "1")] = "(b=1)" := by decide
example : paramDictStr [("a", none)] = "" := by decide
example : paramDictStr [] = "" := by decide

/-! ## The `dymola_script` context manager as a state machine

The two open files (the `.mos` script and the `runs.tsv` run log) are
modelled by a single chronological trace of file events so that write
contents and the order of the closes can both be stated. -/

/-- One file operation performed by the writer. -/
inductive Event
  | writeScript (s : String)
  | closeScript
  | writeLog (s : String)
  | closeLog
deriving DecidableEq, Repr

/-- The state of a `dymola_script` writer: the stored fields
`_command`, `_options`, `_results`, `n_runs` of the Python object, plus
the trace of file events performed so far.  (`_mos` and `_run_log`, the
two file handles, are represented by the trace itself.) -/
structure DymolaScript where
  command : String
  options : OptDict
  results : List String
  n_runs : Nat
  events : List Event
deriving DecidableEq, Repr

/-- The script writes generated for one preload package (simulators.py
lines 251-261): a `.mos` script is run from its folder; a `.mo` file or
a package folder is opened with `openModel` followed by a `cd` back to
the working directory. -/
def packageEvents (env : Env) (workingDir : String) (package : String) :
    List Event :=
  if pyEndsWith package ".mos" then
    [ .writeScript ("cd(\"" ++ env.dirname package ++ "\");\n"),
      .writeScript ("RunScript(\"" ++ env.basename package ++ "\");\n") ]
  else
    (if pyEndsWith package ".mo" then
      [ Event.writeScript ("openModel(\"" ++ package ++ "\");\n") ]
    else
      [ Event.writeScript
          ("openModel(\"" ++ env.joinPath package "package.mo" ++ "\");\n") ])
    ++ [ .writeScript ("cd(\"" ++ workingDir ++ "\");\n") ]

/-- `dymola_script.__init__` (simulators.py lines 214-275): expand the
paths, substitute `%x` in the result-file names in place, write the
script header (date comment, the two imports, the translation-log
setting, the working-directory change, the preload packages, the
destination assignment) and the run-log header line, and set the run
counter to zero. -/
def dymolaScriptInit (env : Env) (fname : String) (command : String)
    (working_dir : Option String) (results : List String)
    (packages : List String) (options : OptDict) : DymolaScript :=
  let fname := env.expandPath fname
  let workingDir :=
    match working_dir with
    | none => env.cwd
    | some w => env.expandPath w
  let resultsDir := env.dirname fname
  let results := results.map (fun r => pyReplace r "%x" env.exe)
  { command := command
    options := options
    results := results
    n_runs := 0
    events :=
      [ .writeScript ("// Dymola script written by ModelicaRes "
          ++ env.today ++ "\n"),
        .writeScript "import Modelica.Utilities.Files.copy;\n",
        .writeScript "import Modelica.Utilities.Files.createDirectory;\n",
        .writeScript "Advanced.TranslationInCommandLog = true \"Also include translation log in command log\";\n",
        .writeScript ("cd(\"" ++ workingDir ++ "\");\n") ]
      ++ (packages.map (packageEvents env workingDir)).flatten
      ++ [ .writeScript ("destination = \"" ++ env.normpath resultsDir
             ++ env.sep ++ "\";\n\n"),
           .writeLog "Run #\tCommand\tOptions\tModel & parameters\n" ] }

/-- Simulators.py line 350: `problem` is the quoted concatenation of the
model name and the serialized parameters when *model* is truthy, and
`None` otherwise.  Python truthiness: both `None` and the empty string
for *model* leave the problem absent. -/
def mkProblem (model : Option String) (params : OptDict) : Option String :=
  match model with
  | none => none
  | some m =>
    if m = "" then none
    else some ("\"" ++ m ++ paramDictStr params ++ "\"")

/-- Simulators.py line 351: `call` is the command name followed by the
serialization of `ParamDict(options, problem=problem)` — the stored
options with the `problem` entry merged in. -/
def mkCall (command : String) (options : OptDict) (problem : Option String) :
    String :=
  command ++ paramDictStr (setItem options "problem" problem)

/-- The tab-delimited run-log record written by `run` (simulators.py
lines 366-370): run number, command name, serialized options without
their surrounding parentheses, serialized model and parameters without
their surrounding quotes. -/
def mkLogLine (n : Nat) (command : String) (options : OptDict)
    (model : Option String) (params : OptDict) : String :=
  String.intercalate "\t"
    [ toString n,
      command,
      stripEnds (paramDictStr options),
      match mkProblem model params with
      | some p => stripEnds p
      | none => "" ]
  ++ "\n"

/-- The file events performed by one `run` call (simulators.py lines
341-371), in program order: the run-number comment, the command
invocation assigned to `ok`, the conditional result-saving block (one
`copy` per stored result file), the `clearlog` call, and the run-log
record. -/
def runEvents (env : Env) (command : String) (options : OptDict)
    (results : List String) (n : Nat) (model : Option String)
    (params : OptDict) : List Event :=
  [ .writeScript ("// Run " ++ toString n ++ "\n"),
    .writeScript ("ok = " ++ mkCall command options (mkProblem model params)
      ++ ";\n"),
    .writeScript "if ok then\n",
    .writeScript "    savelog();\n",
    .writeScript ("    dest = destination + \"" ++ toString n ++ env.sep
      ++ "\";\n"),
    .writeScript "    createDirectory(dest);\n" ]
  ++ results.map (fun r =>
       Event.writeScript ("    copy(\"" ++ r ++ "\", dest + \"" ++ r
         ++ "\", true);\n"))
  ++ [ .writeScript "end if;\n",
       .writeScript "clearlog();\n\n",
       .writeLog (mkLogLine n command options model params) ]

/-- `dymola_script.run` (simulators.py lines 315-371): increment the run
counter and append the script block and the log record for this run. -/
def runCmd (env : Env) (s : DymolaScript) (model : Option String)
    (params : OptDict) : DymolaScript :=
  { s with
    n_runs := s.n_runs + 1
    events := s.events
      ++ runEvents env s.command s.options s.results (s.n_runs + 1) model
           params }

/-- `dymola_script.__exit__` (simulators.py lines 303-312): write the
termination instruction, close the script file, then close the run log.
The exception details passed by the `with` statement are ignored, so the
same events happen on normal and on abnormal exit. -/
def dymolaScriptExit (s : DymolaScript) (_excDetails : Option String) :
    DymolaScript :=
  { s with
    events := s.events
      ++ [ .writeScript "exit();\n", .closeScript, .closeLog ] }

/-- A `with dymola_script(...) as simulator:` scope: run `__init__`,
then the body (which may finish normally, `none`, or raise, `some exc`),
then `__exit__` on whatever state the body reached — Python guarantees
`__exit__` runs in both cases. -/
def withDymolaScript (env : Env) (fname : String) (command : String)
    (working_dir : Option String) (results : List String)
    (packages : List String) (options : OptDict)
    (body : DymolaScript → Option String × DymolaScript) :
    Option String × DymolaScript :=
  let s0 := dymolaScriptInit env fname command working_dir results packages
    options
  let r := body s0
  (r.1, dymolaScriptExit r.2 r.1)

/-- One `run` call: the *model* argument and the *params* argument. -/
structure RunCall where
  model : Option String
  params : OptDict
deriving DecidableEq, Repr

/-- A straight-line sequence of `run` calls. -/
def runList (env : Env) (s : DymolaScript) : List RunCall → DymolaScript
  | [] => s
  | c :: cs => runList env (runCmd env s c.model c.params) cs

/-- The contents written to the script file, in order. -/
def scriptSel : Event → Option String
  | .writeScript str => some str
  | _ => none

/-- The contents written to the run-log file, in order. -/
def logSel : Event → Option String
  | .writeLog str => some str
  | _ => none

def scriptWrites (s : DymolaScript) : List String :=
  s.events.filterMap scriptSel

def logWrites (s : DymolaScript) : List String :=
  s.events.filterMap logSel

/-- The default value of the *results* argument of
`dymola_script.__init__` (simulators.py lines 216-217). -/
def dymolaScriptDefaultResults : List String :=
  ["dsin.txt", "dslog.txt", "dsres.mat", "dymolalg.txt", "dymosim%x"]

/-! ## Attribute access on a `dymola_script` writer -/

/-- Python exception kinds relevant to this code.  (`typeError` stands
for the error CPython raises when `os.path.dirname` is applied to
`None`: `TypeError` on Python 3, `AttributeError` on the Python 2.7 the
package declares; either way it is not `NotImplementedError`.) -/
inductive PyErr
  | notImplemented
  | typeError
  | keyError
  | attributeError
deriving DecidableEq, Repr

/-- The instance fields set through `object.__setattr__`, i.e. the tuple
in `dymola_script.__setattr__` (simulators.py lines 289-290). -/
def knownFields : List String :=
  ["_command", "_run_log", "_mos", "_options", "_results", "n_runs"]

/-- The attributes found on the class itself (its methods); reading one
of these succeeds by normal lookup, so `__getattr__` is never invoked
for them. -/
def classAttrs : List String :=
  ["run", "__init__", "__enter__", "__exit__", "__getattr__",
   "__setattr__"]

/-- What an attribute read resolved to: a real field or method of the
object, or a value fetched from the `_options` dictionary. -/
inductive Looked
  | field
  | opt (v : Option String)
deriving DecidableEq, Repr

/-- Reading an attribute of a `dymola_script` writer.  Normal lookup
finds the instance fields and the class methods; only when it fails does
Python call `__getattr__`, which evaluates `self._options[attr]`
(simulators.py lines 278-282), raising `KeyError` when the key is
absent. -/
def pyGetattr (s : DymolaScript) (attr : String) : Except PyErr Looked :=
  if attr ∈ knownFields ∨ attr ∈ classAttrs then .ok .field
  else
    match lookupItem s.options attr with
    | some v => .ok (.opt v)
    | none => .error .keyError

/-- `dymola_script.__setattr__` (simulators.py lines 285-293):
assignments to the six known fields go to the object itself (those
fields carry machine state of heterogeneous types — file handles, the
run counter — and no claim exercises that branch, so it is the identity
here); any other assignment stores the value in the `_options`
dictionary. -/
def pySetattr (s : DymolaScript) (attr : String) (v : Option String) :
    DymolaScript :=
  if attr ∈ knownFields then s
  else { s with options := setItem s.options attr v }

/-! ## The `dymosim` and `fmi` stubs -/

/-- `os.path.dirname` applied to a possibly-`None` argument: CPython
raises on `None` (it is not a str/bytes/PathLike). -/
def dirnameOpt (env : Env) : Option String → Except PyErr String
  | none => .error .typeError
  | some s => .ok (env.dirname s)

/-- `dymosim.__init__` (simulators.py lines 405-429): resolve the
working directory, take `os.path.dirname` of *results_dir*, substitute
`%x` in the result names, then raise `NotImplementedError`
unconditionally.  The outcome is the exception raised. -/
def dymosimInit (env : Env) (working_dir : Option String)
    (results_dir : Option String) (results : List String) :
    Except PyErr Unit := do
  let _workingDir :=
    match working_dir with
    | none => env.cwd
    | some w => env.expandPath w
  let _resultsDir ← dirnameOpt env results_dir
  let _results := results.map (fun r => pyReplace r "%x" env.exe)
  .error .notImplemented

/-- The default value of the *results* argument of `dymosim.__init__`
(simulators.py line 408). -/
def dymosimDefaultResults : List String :=
  ["dsin.txt", "dslog.txt", "dsres.mat", "dymosim%x", "dymolalg.txt"]

/-- `fmi.__init__` (simulators.py lines 553-555): raise
`NotImplementedError` immediately, whatever the positional and keyword
arguments are. -/
def fmiInit (_args : List String) (_kwargs : OptDict) : Except PyErr Unit :=
  .error .notImplemented

/-! ## The experiment generator

`gen_experiments` lives in `modelicares/exps/__init__.py`, which is not
among the sources at hand; only its caller
(`examples/ChuaCircuit/sim_and_plot.py` lines 47-50) is.  It is
therefore modelled from the spec. -/

/-- An experiment: one (model, parameter set, option set) simulation
task (spec section 3). -/
structure Experiment where
  model : String
  params : List (String × String)
  options : List (String × String)
deriving DecidableEq, Repr

/-- Modelled from the spec: the full-factorial expansion of a mapping
from name to the ordered list of candidate values — every combination
that picks one value per key, keys kept in the iteration order of the
mapping (spec section 4.1; a scalar value is normalized to a one-element
list before this point). -/
def assignments : List (String × List String) → List (List (String × String))
  | [] => [[]]
  | (k, vs) :: rest =>
    (vs.map (fun v => (assignments rest).map (fun a => (k, v) :: a))).flatten

/-- Modelled from the spec: `gen_experiments` (in
`modelicares/exps/__init__.py`, not among the sources at hand) produces
the lazy sequence of `Experiment` values covering every combination of
parameter values, paired with every listed model and every combination
of the listed per-run option values (spec section 4.1). -/
def genExperiments (models : List String)
    (params : List (String × List String))
    (args : List (String × List String)) : List Experiment :=
  (models.map (fun m =>
    ((assignments params).map (fun p =>
      (assignments args).map (fun o => Experiment.mk m p o))).flatten)).flatten

/-! ## The in-place mutation of the *results* argument

`dymola_script.__init__` rewrites `results[i]` via `result.replace`
(simulators.py lines 232-233), mutating the list object of the caller.  To
state aliasing, lists live in a heap indexed by object reference. -/

/-- A heap of list objects, indexed by reference. -/
def Store := Nat → List String

/-- The `%x` substitution applied to every entry of a results list
(simulators.py lines 231-233). -/
def substResults (exe : String) (l : List String) : List String :=
  l.map (fun r => pyReplace r "%x" exe)

/-- The effect of the `__init__` loop of simulators.py lines 232-233 on
the heap: the list object that *ref* points to is rewritten entry by
entry; no new list is allocated. -/
def initMutateResults (exe : String) (store : Store) (ref : Nat) : Store :=
  fun r => if r = ref then substResults exe (store ref) else store r

/-- The reference of the single list object created when the `def`
statement of `dymola_script.__init__` is evaluated: every call that
relies on the default *results* argument passes this same object. -/
def defaultResultsRef : Nat := 0

/-! ## A concrete environment and writer state for instantiations -/

/-- A concrete posix environment. -/
def envTest : Env where
  today := "2026-10-12"
  cwd := "/w"
  isWindows := false
  expandPath := fun s => s
  dirname := fun _ => "/d"
  normpath := fun s => s
  basename := fun _ => ""
  joinPath := fun a b => a ++ "/" ++ b

/-- A concrete writer state with the (posix-substituted) default result
files and no events yet. -/
def sTest : DymolaScript where
  command := "simulateModel"
  options := []
  results := ["dsin.txt", "dslog.txt", "dsres.mat", "dymolalg.txt", "dymosim"]
  n_runs := 0
  events := []

/-! ## Helper lemmas -/

@[simp] lemma scriptSel_writeScript (s : String) :
    scriptSel (.writeScript s) = some s := rfl

@[simp] lemma scriptSel_writeLog (s : String) :
    scriptSel (.writeLog s) = none := rfl

@[simp] lemma scriptSel_closeScript : scriptSel .closeScript = none := rfl

@[simp] lemma scriptSel_closeLog : scriptSel .closeLog = none := rfl

@[simp] lemma logSel_writeScript (s : String) :
    logSel (.writeScript s) = none := rfl

@[simp] lemma logSel_writeLog (s : String) :
    logSel (.writeLog s) = some s := rfl

@[simp] lemma logSel_closeScript : logSel .closeScript = none := rfl

@[simp] lemma logSel_closeLog : logSel .closeLog = none := rfl

lemma filterMap_logSel_map_writeScript (l : List String) (f : String → String) :
    (l.map (fun r => Event.writeScript (f r))).filterMap logSel = [] := by
  induction l with
  | nil => simp
  | cons r rs ih => simp [ih]

lemma filterMap_scriptSel_map_writeScript (l : List String)
    (f : String → String) :
    (l.map (fun r => Event.writeScript (f r))).filterMap scriptSel
      = l.map f := by
  induction l with
  | nil => simp
  | cons r rs ih => simp [ih]

lemma filterMap_logSel_packageEvents (env : Env) (wd p : String) :
    (packageEvents env wd p).filterMap logSel = [] := by
  unfold packageEvents
  by_cases h1 : pyEndsWith p ".mos"
  · simp [h1]
  · by_cases h2 : pyEndsWith p ".mo" <;> simp [h1, h2]

lemma logSel_packageEvents (env : Env) (wd p : String) :
    ∀ e ∈ packageEvents env wd p, logSel e = none := by
  intro e he
  unfold packageEvents at he
  by_cases h1 : pyEndsWith p ".mos"
  · simp [h1] at he
    rcases he with h | h <;> simp [h]
  · by_cases h2 : pyEndsWith p ".mo" <;> simp [h1, h2] at he <;>
      rcases he with h | h <;> simp [h]

lemma logWrites_init (env : Env) (fname command : String)
    (working_dir : Option String) (results packages : List String)
    (options : OptDict) :
    logWrites (dymolaScriptInit env fname command working_dir results
        packages options)
      = ["Run #\tCommand\tOptions\tModel & parameters\n"] := by
  simp [logWrites, dymolaScriptInit, List.filterMap_append]
  intro p _ e he
  exact logSel_packageEvents env _ p e he

lemma logWrites_runCmd (env : Env) (s : DymolaScript) (model : Option String)
    (params : OptDict) :
    logWrites (runCmd env s model params)
      = logWrites s
        ++ [mkLogLine (s.n_runs + 1) s.command s.options model params] := by
  simp [logWrites, runCmd, runEvents, List.filterMap_append,
    filterMap_logSel_map_writeScript]

@[simp] lemma runCmd_command (env : Env) (s : DymolaScript)
    (model : Option String) (params : OptDict) :
    (runCmd env s model params).command = s.command := rfl

@[simp] lemma runCmd_options (env : Env) (s : DymolaScript)
    (model : Option String) (params : OptDict) :
    (runCmd env s model params).options = s.options := rfl

@[simp] lemma runCmd_n_runs (env : Env) (s : DymolaScript)
    (model : Option String) (params : OptDict) :
    (runCmd env s model params).n_runs = s.n_runs + 1 := rfl

lemma runList_logWrites (env : Env) (cs : List RunCall) :
    ∀ s : DymolaScript,
      logWrites (runList env s cs)
        = logWrites s
          ++ ((List.range' (s.n_runs + 1) cs.length).zip cs).map
               (fun pc =>
                 mkLogLine pc.1 s.command s.options pc.2.model pc.2.params) := by
  induction cs with
  | nil => intro s; simp [runList]
  | cons c cs ih =>
    intro s
    rw [runList, ih]
    simp [logWrites_runCmd, List.range'_succ, Nat.add_assoc]

/-! ## Claims -/

/-- C1: for every sequence of `run()` calls on a `dymola_script` writer,
the run log consists of its header line followed by one tab-delimited
record per call, whose run numbers are exactly 1, 2, ..., k — i.e. each
call records a number one greater than the previous, equal to the number
of calls made so far. -/
theorem run_log_numbers_sequential (env : Env) (fname command : String)
    (working_dir : Option String) (results packages : List String)
    (options : OptDict) (cs : List RunCall) :
    logWrites (runList env
        (dymolaScriptInit env fname command working_dir results packages
          options) cs)
      = "Run #\tCommand\tOptions\tModel & parameters\n"
        :: ((List.range' 1 cs.length).zip cs).map
             (fun pc =>
               String.intercalate "\t"
                 [ toString pc.1,
                   command,
                   stripEnds (paramDictStr options),
                   match mkProblem pc.2.model pc.2.params with
                   | some p => stripEnds p
                   | none => "" ]
               ++ "\n") := by
  rw [runList_logWrites, logWrites_init]
  simp [dymolaScriptInit, mkLogLine]

/-- C2: on scope exit — whether the body finished normally or raised —
the writer writes the termination instruction `exit();` to the script
file and then closes the two files in order: the script file first, then
the run log. -/
theorem exit_writes_and_closes_in_order (env : Env) (fname command : String)
    (working_dir : Option String) (results packages : List String)
    (options : OptDict) (s : DymolaScript) (exc : Option String)
    (body : DymolaScript → Option String × DymolaScript) :
    (dymolaScriptExit s exc).events
      = s.events
        ++ [.writeScript "exit();\n", .closeScript, .closeLog]
    ∧ (withDymolaScript env fname command working_dir results packages
          options body).2.events
      = (body (dymolaScriptInit env fname command working_dir results
            packages options)).2.events
        ++ [.writeScript "exit();\n", .closeScript, .closeLog] :=
  ⟨rfl, rfl⟩

/-- C4: a scope entered and exited with zero `run()` calls (and no
preload packages) leaves a script holding exactly the header — the
generation-date comment, the two imports, the translation-log setting,
the working-directory change, the destination assignment — followed by
the termination statement, and a run log holding exactly the single
header line. -/
theorem empty_scope_well_formed (env : Env) (fname command : String)
    (working_dir : Option String) (results : List String)
    (options : OptDict) (exc : Option String) :
    scriptWrites (dymolaScriptExit
        (dymolaScriptInit env fname command working_dir results [] options)
        exc)
      = [ "// Dymola script written by ModelicaRes " ++ env.today ++ "\n",
          "import Modelica.Utilities.Files.copy;\n",
          "import Modelica.Utilities.Files.createDirectory;\n",
          "Advanced.TranslationInCommandLog = true \"Also include translation log in command log\";\n",
          "cd(\"" ++ (match working_dir with
                      | none => env.cwd
                      | some w => env.expandPath w) ++ "\");\n",
          "destination = \"" ++ env.normpath (env.dirname
              (env.expandPath fname)) ++ env.sep ++ "\";\n\n",
          "exit();\n" ]
    ∧ logWrites (dymolaScriptExit
        (dymolaScriptInit env fname command working_dir results [] options)
        exc)
      = ["Run #\tCommand\tOptions\tModel & parameters\n"] := by
  constructor
  · simp [scriptWrites, dymolaScriptInit, dymolaScriptExit,
      List.filterMap_append]
  · simp [logWrites, dymolaScriptInit, dymolaScriptExit,
      List.filterMap_append]

instance {ε α : Type} [DecidableEq ε] [DecidableEq α] :
    DecidableEq (Except ε α) := fun x y =>
  match x, y with
  | .ok a, .ok b =>
    if h : a = b then isTrue (by rw [h])
    else isFalse (fun hc => h (Except.ok.inj hc))
  | .error e, .error f =>
    if h : e = f then isTrue (by rw [h])
    else isFalse (fun hc => h (Except.error.inj hc))
  | .ok _, .error _ => isFalse (fun hc => Except.noConfusion hc)
  | .error _, .ok _ => isFalse (fun hc => Except.noConfusion hc)

lemma lookupItem_setItem (d : OptDict) (k : String) (v : Option String) :
    lookupItem (setItem d k v) k = some v := by
  induction d with
  | nil => simp [setItem, lookupItem]
  | cons kv rest ih =>
    by_cases hk : kv.1 = k
    · simp [setItem, hk, lookupItem]
    · simpa [setItem, hk, lookupItem, List.find?_cons, hk] using ih

/-- The scenario writer of C3: a fresh `dymola_script` constructed with
the default file name, command and result list, no working directory,
no preload packages and no options, in the concrete posix
environment. -/
def sChua : DymolaScript :=
  dymolaScriptInit envTest "run_sims.mos" "simulateModel" none
    dymolaScriptDefaultResults [] []

/-- C3: each `run()` call with run number n appends to the script, in
order, a comment naming run n, the run invocation assigning `ok`, a
conditional block that creates the directory `destination + "n/"` and
copies each of the five (default, posix-substituted) result files into
it, and a log-clear call; and in the concrete scenario of the spec —
`run("ModelX", {"L.L": 15})` after `run("ModelX", {"L.L": 21})` on a
freshly constructed writer — the script holds the header followed by two
such blocks numbered 1 and 2 copying the same five files into `"1/"` and
`"2/"`, and the log holds two matching data lines. -/
theorem run_appends_numbered_block (env : Env) (h : env.isWindows = false)
    (t : DymolaScript)
    (ht : t.results
      = ["dsin.txt", "dslog.txt", "dsres.mat", "dymolalg.txt", "dymosim"])
    (model : Option String) (params : OptDict) :
    ((runCmd env t model params).events
      = t.events
        ++ [ .writeScript ("// Run " ++ toString (t.n_runs + 1) ++ "\n"),
             .writeScript ("ok = "
               ++ mkCall t.command t.options (mkProblem model params)
               ++ ";\n"),
             .writeScript "if ok then\n",
             .writeScript "    savelog();\n",
             .writeScript ("    dest = destination + \""
               ++ toString (t.n_runs + 1) ++ "/\";\n"),
             .writeScript "    createDirectory(dest);\n",
             .writeScript "    copy(\"dsin.txt\", dest + \"dsin.txt\", true);\n",
             .writeScript "    copy(\"dslog.txt\", dest + \"dslog.txt\", true);\n",
             .writeScript "    copy(\"dsres.mat\", dest + \"dsres.mat\", true);\n",
             .writeScript "    copy(\"dymolalg.txt\", dest + \"dymolalg.txt\", true);\n",
             .writeScript "    copy(\"dymosim\", dest + \"dymosim\", true);\n",
             .writeScript "end if;\n",
             .writeScript "clearlog();\n\n",
             .writeLog (mkLogLine (t.n_runs + 1) t.command t.options model
               params) ])
    ∧ scriptWrites (runCmd envTest
          (runCmd envTest sChua (some "ModelX") [("L.L", some "21")])
          (some "ModelX") [("L.L", some "15")])
      = [ "// Dymola script written by ModelicaRes 2026-10-12\n",
          "import Modelica.Utilities.Files.copy;\n",
          "import Modelica.Utilities.Files.createDirectory;\n",
          "Advanced.TranslationInCommandLog = true \"Also include translation log in command log\";\n",
          "cd(\"/w\");\n",
          "destination = \"/d/\";\n\n",
          "// Run 1\n",
          "ok = simulateModel(problem=\"ModelX(L.L=21)\");\n",
          "if ok then\n",
          "    savelog();\n",
          "    dest = destination + \"1/\";\n",
          "    createDirectory(dest);\n",
          "    copy(\"dsin.txt\", dest + \"dsin.txt\", true);\n",
          "    copy(\"dslog.txt\", dest + \"dslog.txt\", true);\n",
          "    copy(\"dsres.mat\", dest + \"dsres.mat\", true);\n",
          "    copy(\"dymolalg.txt\", dest + \"dymolalg.txt\", true);\n",
          "    copy(\"dymosim\", dest + \"dymosim\", true);\n",
          "end if;\n",
          "clearlog();\n\n",
          "// Run 2\n",
          "ok = simulateModel(problem=\"ModelX(L.L=15)\");\n",
          "if ok then\n",
          "    savelog();\n",
          "    dest = destination + \"2/\";\n",
          "    createDirectory(dest);\n",
          "    copy(\"dsin.txt\", dest + \"dsin.txt\", true);\n",
          "    copy(\"dslog.txt\", dest + \"dslog.txt\", true);\n",
          "    copy(\"dsres.mat\", dest + \"dsres.mat\", true);\n",
          "    copy(\"dymolalg.txt\", dest + \"dymolalg.txt\", true);\n",
          "    copy(\"dymosim\", dest + \"dymosim\", true);\n",
          "end if;\n",
          "clearlog();\n\n" ]
    ∧ logWrites (runCmd envTest
          (runCmd envTest sChua (some "ModelX") [("L.L", some "21")])
          (some "ModelX") [("L.L", some "15")])
      = [ "Run #\tCommand\tOptions\tModel & parameters\n",
          "1\tsimulateModel\t\tModelX(L.L=21)\n",
          "2\tsimulateModel\t\tModelX(L.L=15)\n" ] := by
  refine ⟨?_, by decide, by decide⟩
  have hx : ("/" : String) ++ "\";\n" = "/\";\n" := by decide
  simp [runCmd, runEvents, ht, h, Env.sep, sepOf, String.append_assoc, hx]

/-- C3 witness: the general per-run conjunct instantiated at the
concrete writer `sTest` (run number 1). -/
theorem run_appends_numbered_block_witness :
    envTest.isWindows = false
    ∧ sTest.results
        = ["dsin.txt", "dslog.txt", "dsres.mat", "dymolalg.txt", "dymosim"]
    ∧ (runCmd envTest sTest (some "M") []).events
        = [ .writeScript "// Run 1\n",
            .writeScript "ok = simulateModel(problem=\"M\");\n",
            .writeScript "if ok then\n",
            .writeScript "    savelog();\n",
            .writeScript "    dest = destination + \"1/\";\n",
            .writeScript "    createDirectory(dest);\n",
            .writeScript "    copy(\"dsin.txt\", dest + \"dsin.txt\", true);\n",
            .writeScript "    copy(\"dslog.txt\", dest + \"dslog.txt\", true);\n",
            .writeScript "    copy(\"dsres.mat\", dest + \"dsres.mat\", true);\n",
            .writeScript "    copy(\"dymolalg.txt\", dest + \"dymolalg.txt\", true);\n",
            .writeScript "    copy(\"dymosim\", dest + \"dymosim\", true);\n",
            .writeScript "end if;\n",
            .writeScript "clearlog();\n\n",
            .writeLog "1\tsimulateModel\t\tM\n" ] := by
  refine ⟨by decide, by decide, ?_⟩
  have := (run_appends_numbered_block envTest (by decide) sTest (by decide)
    (some "M") []).1
  simpa using this

/-- C5 counterexample: assigning to the attribute `run` — which is not
one of the six known internal fields — does store the value in the
option set, but reading `run` back finds the class method by normal
attribute lookup and does not return the stored option value, contrary
to the claim. -/
theorem setattr_method_name_read_counterexample :
    (pySetattr sTest "run" (some "5")).options = [("run", some "5")]
    ∧ pyGetattr (pySetattr sTest "run" (some "5")) "run"
        = Except.ok Looked.field
    ∧ pyGetattr (pySetattr sTest "run" (some "5")) "run"
        ≠ Except.ok (Looked.opt (some "5")) := by
  refine ⟨by decide, by decide, by decide⟩

/-- C5 (amended): assigning any attribute other than the six known
internal fields stores the value in the option set, every subsequent
`run()` call serializes its command using the updated option set (and
keeps it), and — provided the name is not also an attribute provided by
the class, such as the method `run` — reading the attribute back
returns the stored option value. -/
theorem setattr_goes_to_options (env : Env) (s : DymolaScript)
    (attr : String) (v : Option String) (h : attr ∉ knownFields)
    (model : Option String) (params : OptDict) :
    (pySetattr s attr v).options = setItem s.options attr v
    ∧ (attr ∉ classAttrs →
        pyGetattr (pySetattr s attr v) attr = .ok (.opt v))
    ∧ (runCmd env (pySetattr s attr v) model params).options
        = setItem s.options attr v
    ∧ Event.writeScript ("ok = "
          ++ mkCall s.command (setItem s.options attr v)
               (mkProblem model params) ++ ";\n")
        ∈ (runCmd env (pySetattr s attr v) model params).events := by
  refine ⟨by simp [pySetattr, h], ?_, by simp [pySetattr, h], ?_⟩
  · intro h2
    simp [pyGetattr, pySetattr, h, h2, lookupItem_setItem]
  · simp [runCmd, runEvents, pySetattr, h]

/-- C5 witness: the amended claim at the concrete writer `sTest`,
attribute `stopTime`, value `2500`. -/
theorem setattr_goes_to_options_witness :
    "stopTime" ∉ knownFields
    ∧ (pySetattr sTest "stopTime" (some "2500")).options
        = setItem sTest.options "stopTime" (some "2500")
    ∧ pyGetattr (pySetattr sTest "stopTime" (some "2500")) "stopTime"
        = .ok (.opt (some "2500"))
    ∧ (runCmd envTest (pySetattr sTest "stopTime" (some "2500"))
          (some "M") []).options
        = setItem sTest.options "stopTime" (some "2500")
    ∧ Event.writeScript ("ok = "
          ++ mkCall sTest.command (setItem sTest.options "stopTime"
               (some "2500")) (mkProblem (some "M") []) ++ ";\n")
        ∈ (runCmd envTest (pySetattr sTest "stopTime" (some "2500"))
            (some "M") []).events := by
  refine ⟨by decide,
    (setattr_goes_to_options envTest sTest "stopTime" (some "2500")
      (by decide) (some "M") []).1,
    (setattr_goes_to_options envTest sTest "stopTime" (some "2500")
      (by decide) (some "M") []).2.1 (by decide),
    (setattr_goes_to_options envTest sTest "stopTime" (some "2500")
      (by decide) (some "M") []).2.2.1,
    (setattr_goes_to_options envTest sTest "stopTime" (some "2500")
      (by decide) (some "M") []).2.2.2⟩

/-- C10 counterexample: reading the attribute `run` — which is not one
of the six known internal fields and is not a key of the (empty) option
set — does not raise at all: normal lookup finds the class method, so
the `KeyError` the claim asserts does not occur. -/
theorem getattr_method_name_counterexample :
    "run" ∉ knownFields
    ∧ lookupItem sTest.options "run" = none
    ∧ pyGetattr sTest "run" = Except.ok Looked.field
    ∧ pyGetattr sTest "run" ≠ Except.error PyErr.keyError := by
  refine ⟨by decide, by decide, by decide, by decide⟩

/-- C10 (amended): reading an attribute that is neither a known internal
field, nor an attribute provided by the class (a method name such as
`run`), nor a key of the stored option set, raises `KeyError` — not
`AttributeError` — because the unknown-attribute fallback indexes the
options dictionary directly. -/
theorem getattr_unknown_raises_keyerror (s : DymolaScript) (attr : String)
    (h1 : attr ∉ knownFields) (h2 : attr ∉ classAttrs)
    (h3 : lookupItem s.options attr = none) :
    pyGetattr s attr = .error .keyError
    ∧ pyGetattr s attr ≠ .error .attributeError := by
  constructor
  · simp [pyGetattr, h1, h2, h3]
  · simp [pyGetattr, h1, h2, h3]

/-- C10 witness: the amended claim at the concrete writer `sTest` and
the attribute `missing`. -/
theorem getattr_unknown_raises_keyerror_witness :
    pyGetattr sTest "missing" = .error .keyError
    ∧ pyGetattr sTest "missing" ≠ .error .attributeError :=
  getattr_unknown_raises_keyerror sTest "missing" (by decide) (by decide)
    (by decide)

lemma length_flatten_map_const {α β : Type} (l : List α) (f : α → List β)
    (n : Nat) (h : ∀ a, (f a).length = n) :
    (l.map f).flatten.length = l.length * n := by
  induction l with
  | nil => simp
  | cons a as ih => simp [h, ih, Nat.succ_mul, Nat.add_comm]

lemma assignments_length (ps : List (String × List String)) :
    (assignments ps).length = (ps.map (fun kv => kv.2.length)).prod := by
  induction ps with
  | nil => simp [assignments]
  | cons kv rest ih =>
    obtain ⟨k, vs⟩ := kv
    rw [assignments,
      length_flatten_map_const vs _ (assignments rest).length
        (fun v => by simp)]
    simp [ih, Nat.mul_comm]

lemma assignments_keys (ps : List (String × List String)) :
    ∀ a ∈ assignments ps, a.map Prod.fst = ps.map Prod.fst := by
  induction ps with
  | nil => intro a ha; simp [assignments] at ha; simp [ha]
  | cons kv rest ih =>
    intro a ha
    obtain ⟨k, vs⟩ := kv
    rw [assignments] at ha
    simp only [List.mem_flatten, List.mem_map] at ha
    obtain ⟨l, ⟨v, _, hl⟩, hal⟩ := ha
    subst hl
    simp only [List.mem_map] at hal
    obtain ⟨a0, ha0, hcons⟩ := hal
    subst hcons
    simp [ih a0 ha0]

/-- C6: the experiment generator yields exactly
m x n1 x n2 x ... experiments — one per combination of a listed model,
one candidate value per parameter key in the mapping, and one candidate
value per listed run-option key — and within each produced experiment the
parameter names and option names come out in the iteration order of
the input mapping. -/
theorem gen_experiments_full_factorial (models : List String)
    (params args : List (String × List String)) :
    (genExperiments models params args).length
      = models.length * ((params.map (fun kv => kv.2.length)).prod
          * (args.map (fun kv => kv.2.length)).prod)
    ∧ ∀ e ∈ genExperiments models params args,
        e.params.map Prod.fst = params.map Prod.fst
        ∧ e.options.map Prod.fst = args.map Prod.fst := by
  constructor
  · rw [genExperiments,
      length_flatten_map_const models _
        ((params.map (fun kv => kv.2.length)).prod
          * (args.map (fun kv => kv.2.length)).prod)
        (fun m => ?_), Nat.mul_comm]
    rw [length_flatten_map_const (assignments params) _
      ((args.map (fun kv => kv.2.length)).prod) (fun p => by
        simp [assignments_length])]
    simp [assignments_length, Nat.mul_comm]
  · intro e he
    rw [genExperiments] at he
    simp only [List.mem_flatten, List.mem_map] at he
    obtain ⟨l, ⟨m, _, hl⟩, hel⟩ := he
    subst hl
    simp only [List.mem_flatten, List.mem_map] at hel
    obtain ⟨l2, ⟨p, hp, hl2⟩, hel2⟩ := hel
    subst hl2
    simp only [List.mem_map] at hel2
    obtain ⟨o, ho, he⟩ := hel2
    subst he
    exact ⟨assignments_keys params p hp, assignments_keys args o ho⟩

/-- C6 witness: two models, a two-key parameter mapping with two and one
candidate values, one single-valued option: 2 x 2 x 1 x 1 = 4
experiments, keys in mapping order. -/
theorem gen_experiments_full_factorial_witness :
    (genExperiments ["A", "B"] [("x", ["1", "2"]), ("y", ["3"])]
        [("s", ["5"])]).length = 4
    ∧ (Experiment.mk "A" [("x", "1"), ("y", "3")] [("s", "5")]
          ∈ genExperiments ["A", "B"] [("x", ["1", "2"]), ("y", ["3"])]
            [("s", ["5"])]
        ∧ (Experiment.mk "A" [("x", "1"), ("y", "3")] [("s", "5")]).params.map
            Prod.fst = ["x", "y"]) := by
  refine ⟨?_, by decide, ?_⟩
  · have := (gen_experiments_full_factorial ["A", "B"]
      [("x", ["1", "2"]), ("y", ["3"])] [("s", ["5"])]).1
    simpa using this
  · have := ((gen_experiments_full_factorial ["A", "B"]
      [("x", ["1", "2"]), ("y", ["3"])] [("s", ["5"])]).2
      (Experiment.mk "A" [("x", "1"), ("y", "3")] [("s", "5")])
      (by decide)).1
    exact this.trans (by decide)

lemma entryStrs_middle_none (p1 p2 : OptDict) (k : String) :
    entryStrs (p1 ++ (k, none) :: p2) = entryStrs (p1 ++ p2) := by
  simp [entryStrs, List.filterMap_append]

lemma paramDictStr_middle_none (p1 p2 : OptDict) (k : String) :
    paramDictStr (p1 ++ (k, none) :: p2) = paramDictStr (p1 ++ p2) := by
  unfold paramDictStr
  rw [entryStrs_middle_none]

lemma entryStrs_filter_some (d : OptDict) :
    entryStrs (d.filter (fun kv => kv.2.isSome)) = entryStrs d := by
  induction d with
  | nil => simp
  | cons kv rest ih =>
    cases h : kv.2 <;> simp [entryStrs, List.filter_cons, h] at ih ⊢ <;>
      exact ih

lemma mkProblem_middle_none (model : Option String) (p1 p2 : OptDict)
    (k : String) :
    mkProblem model (p1 ++ (k, none) :: p2) = mkProblem model (p1 ++ p2) := by
  cases model with
  | none => rfl
  | some m => simp [mkProblem, paramDictStr_middle_none]

lemma entryStrs_setItem_middle_none (k : String) (hk : k ≠ "problem")
    (pr : Option String) :
    ∀ o1 o2 : OptDict,
      entryStrs (setItem (o1 ++ (k, none) :: o2) "problem" pr)
        = entryStrs (setItem (o1 ++ o2) "problem" pr) := by
  intro o1
  induction o1 with
  | nil =>
    intro o2
    simp only [List.nil_append, setItem, hk]
    simp [entryStrs]
  | cons kv rest ih =>
    intro o2
    have htail : List.filterMap
          (fun kv => Option.map (fun v => kv.1 ++ "=" ++ v) kv.2)
          (rest ++ (k, none) :: o2)
        = List.filterMap
            (fun kv => Option.map (fun v => kv.1 ++ "=" ++ v) kv.2)
            (rest ++ o2) := by
      have := entryStrs_middle_none rest o2 k
      simp only [entryStrs] at this
      exact this
    have hih : List.filterMap
          (fun kv => Option.map (fun v => kv.1 ++ "=" ++ v) kv.2)
          (setItem (rest ++ (k, none) :: o2) "problem" pr)
        = List.filterMap
            (fun kv => Option.map (fun v => kv.1 ++ "=" ++ v) kv.2)
            (setItem (rest ++ o2) "problem" pr) := by
      simpa [entryStrs] using ih o2
    by_cases hkv : kv.1 = "problem"
    · simp only [List.cons_append, setItem, hkv, if_pos]
      simp [entryStrs, List.filterMap_cons, htail]
    · simp only [List.cons_append, setItem, if_neg hkv]
      simp [entryStrs, List.filterMap_cons, hih]

/-- C7: serialization omits null-valued entries entirely — the rendered
string of a dictionary equals that of its none-free restriction; a
`run()` call given a parameter set with a `None` entry behaves exactly
as without that entry (same script, same log); the options column of
the log line likewise drops a `None` option; and the serialized command
string drops a `None` option entry (for entry names other than the
merged `problem` key, whose slot the command serializer itself
fills). -/
theorem none_entries_omitted (env : Env) (s : DymolaScript) (d : OptDict)
    (model : Option String) (k : String) (p1 p2 : OptDict) (c : String)
    (pr : Option String) :
    paramDictStr d = paramDictStr (d.filter (fun kv => kv.2.isSome))
    ∧ runCmd env s model (p1 ++ (k, none) :: p2)
        = runCmd env s model (p1 ++ p2)
    ∧ stripEnds (paramDictStr (p1 ++ (k, none) :: p2))
        = stripEnds (paramDictStr (p1 ++ p2))
    ∧ (k ≠ "problem" →
        mkCall c (p1 ++ (k, none) :: p2) pr = mkCall c (p1 ++ p2) pr) := by
  refine ⟨?_, ?_, ?_, ?_⟩
  · unfold paramDictStr
    rw [entryStrs_filter_some]
  · simp [runCmd, runEvents, mkCall, mkLogLine, mkProblem_middle_none]
  · rw [paramDictStr_middle_none]
  · intro hk
    unfold mkCall paramDictStr
    rw [entryStrs_setItem_middle_none k hk pr]

/-- C7 witness: the omission statements at concrete inputs — a `None`
parameter entry and a `None` option entry named `unused`. -/
theorem none_entries_omitted_witness :
    paramDictStr [("a", none), ("b", some "1")]
      = paramDictStr ([("a", none), ("b", some "1")].filter
          (fun kv => kv.2.isSome))
    ∧ runCmd envTest sTest (some "M")
        ([("x", some "1")] ++ ("dead", none) :: [("y", some "2")])
      = runCmd envTest sTest (some "M") ([("x", some "1")] ++ [("y", some "2")])
    ∧ stripEnds (paramDictStr ([("x", some "1")] ++ ("dead", none)
          :: [("y", some "2")]))
      = stripEnds (paramDictStr ([("x", some "1")] ++ [("y", some "2")]))
    ∧ mkCall "simulateModel" ([("x", some "1")] ++ ("unused", none)
          :: [("y", some "2")]) (some "\"M\"")
      = mkCall "simulateModel" ([("x", some "1")] ++ [("y", some "2")])
          (some "\"M\"") := by
  have h := none_entries_omitted envTest sTest [("a", none), ("b", some "1")]
    (some "M") "dead" [("x", some "1")] [("y", some "2")] "simulateModel"
    (some "\"M\"")
  have h2 := none_entries_omitted envTest sTest [("a", none), ("b", some "1")]
    (some "M") "unused" [("x", some "1")] [("y", some "2")] "simulateModel"
    (some "\"M\"")
  exact ⟨h.1, h.2.1, h.2.2.1, h2.2.2.2 (by decide)⟩

/-- C8 counterexample: constructing `dymosim` with its default arguments
(`results_dir = None`) fails at `os.path.dirname(None)` with a type
error, before the not-implemented raise is reached — so the stub does
not raise a "not implemented" error for every combination of
constructor arguments. -/
theorem dymosim_default_args_counterexample :
    dymosimInit envTest none none dymosimDefaultResults
      = Except.error PyErr.typeError
    ∧ dymosimInit envTest none none dymosimDefaultResults
        ≠ Except.error PyErr.notImplemented := by
  refine ⟨rfl, by decide⟩

/-- C8 (amended): `fmi` raises a not-implemented error unconditionally,
for every combination of constructor arguments; `dymosim` raises a
not-implemented error whenever *results_dir* is given as a string, but
with the default `results_dir = None` it raises a type error from
`os.path.dirname(None)` first. -/
theorem stubs_raise_not_implemented (env : Env) (working_dir : Option String)
    (rd : String) (results : List String) (args : List String)
    (kwargs : OptDict) :
    dymosimInit env working_dir (some rd) results
      = Except.error PyErr.notImplemented
    ∧ fmiInit args kwargs = Except.error PyErr.notImplemented :=
  ⟨rfl, rfl⟩

/-- C9: `dymola_script.__init__` rewrites the results list object of
the caller in place — after construction, the very reference the caller
holds yields the `%x`-substituted entries; since the default argument is
the single list object created at function-definition time, two
default-argument constructions apply the substitution twice to that same
object; on a posix system the substitution turns the default list into
the five concrete file names. -/
theorem init_mutates_results_in_place (store : Store) (ref : Nat)
    (b : Bool) :
    initMutateResults (exeOf b) store ref ref
      = substResults (exeOf b) (store ref)
    ∧ initMutateResults (exeOf b)
          (initMutateResults (exeOf b) store defaultResultsRef)
          defaultResultsRef defaultResultsRef
        = substResults (exeOf b)
            (substResults (exeOf b) (store defaultResultsRef))
    ∧ substResults (exeOf false) dymolaScriptDefaultResults
        = ["dsin.txt", "dslog.txt", "dsres.mat", "dymolalg.txt",
           "dymosim"] := by
  refine ⟨by simp [initMutateResults], by simp [initMutateResults],
    by decide⟩

end ModelicaRes
